import Mathlib

/-!
Shallow embedding of the core of the `vulkan-sandbox` repository:
the buffer write path (`src/vulkan/buffer.rs`), the swapchain image-count
computation (`src/vulkan/swapchain.rs`), physical-device selection
(`src/device.rs`), the descriptor allocator
(`src/vulkan/descriptors/allocator.rs`), the per-frame transform write
of the mesh renderer (`src/mesh_renderer.rs`) and the frame
loop of the master renderer (`src/master_renderer.rs`).

GPU-side behaviour (driver calls) is modelled by its documented result:
a descriptor-pool allocation succeeds exactly when the pool has room, an
acquire/present call returns the result injected by the environment, and
raw-pointer writes are modelled as an abstract transformation of the
buffer contents.  Machine integers are modelled as `Nat`; none of the
verified computations can overflow their 32/64-bit source types on the
inputs considered.
-/

namespace VulkanSandbox

/-- Error codes of `ash::vk::Result` that the embedded code distinguishes. -/
inductive VkResult where
  | errOutOfDateKhr
  | errOutOfPoolMemoryKhr
  | suboptimalKhr
  | other (code : Nat)
deriving Repr, DecidableEq

/-- The error enum `vulkan::Error` of the repository (the variant
`BufferOverflow { size, max_size }` is constructed in
`src/vulkan/buffer.rs`, `VulkanError` wraps an `ash::vk::Result`). -/
inductive VError where
  | bufferOverflow (size max_size : Nat)
  | vulkanError (code : VkResult)
  | unsuitableDevice
deriving Repr, DecidableEq

/-! ## Buffer (`src/vulkan/buffer.rs`) -/

/-- The `BufferType` enum from `src/vulkan/buffer.rs`. -/
inductive BufferType where
  | Vertex
  | Index16
  | Index32
  | Uniform
  | Storage
deriving Repr, DecidableEq

/-- The `BufferUsage` enum from `src/vulkan/buffer.rs`. -/
inductive BufferUsage where
  | Staged
  | StagedPersistent
  | Mapped
  | MappedPersistent
deriving Repr, DecidableEq

/-- The `Buffer` struct from `src/vulkan/buffer.rs`.  `size` is the
allocated capacity in bytes (`DeviceSize`), `contents` abstracts the
bytes of the GPU allocation, and `staging_buffer` records the size of the
persistent staging buffer when one has been created. -/
structure Buffer where
  size : Nat
  ty : BufferType
  usage : BufferUsage
  contents : List Nat
  staging_buffer : Option Nat
deriving Repr, DecidableEq

/-- Observable effects of one `Buffer::write` call: whether the
`write_func` closure of the caller was invoked, whether a temporary staging buffer was
created (the `Staged` path), and whether a persistent staging buffer was
created (first `StagedPersistent` write). -/
structure WriteTrace where
  invoked : Bool
  temp_staging_created : Bool
  persistent_staging_created : Bool
deriving Repr, DecidableEq

/-- The trace of a call that performed no work at all. -/
def WriteTrace.none : WriteTrace :=
  { invoked := false, temp_staging_created := false, persistent_staging_created := false }

namespace Buffer

/-- Embeds `Buffer::write` from `src/vulkan/buffer.rs` (lines 163-186).  The
closure `write_func : FnOnce(*mut u8)` writes through a raw pointer; its
effect on the mapped region is abstracted as `f` applied to the buffer
contents.  The overflow check `size > self.size` precedes every dispatch
on `self.usage`. -/
def write (b : Buffer) (size offset : Nat) (f : List Nat → List Nat) :
    Except VError Buffer × WriteTrace :=
  if size > b.size then
    (Except.error (VError.bufferOverflow size b.size), WriteTrace.none)
  else
    match b.usage with
    | BufferUsage.Staged =>
        -- write_staged: create a temporary mapped staging buffer, invoke
        -- write_func, copy into the destination, destroy the staging buffer
        (Except.ok { b with contents := f b.contents },
         { invoked := true, temp_staging_created := true,
           persistent_staging_created := false })
    | BufferUsage.StagedPersistent =>
        -- write_staged_persistent: create the persistent staging buffer on
        -- first use (sized to the whole buffer), map, invoke, copy, unmap
        (Except.ok { b with contents := f b.contents,
                            staging_buffer := some b.size },
         { invoked := true, temp_staging_created := false,
           persistent_staging_created := b.staging_buffer.isNone })
    | BufferUsage.Mapped =>
        -- write_mapped: map, invoke, unmap
        (Except.ok { b with contents := f b.contents },
         { invoked := true, temp_staging_created := false,
           persistent_staging_created := false })
    | BufferUsage.MappedPersistent =>
        -- write_mapped_persistent: invoke on the persistently mapped
        -- pointer, then flush the byte range
        (Except.ok { b with contents := f b.contents },
         { invoked := true, temp_staging_created := false,
           persistent_staging_created := false })

end Buffer

/-! ## Swapchain image count (`src/vulkan/swapchain.rs`) -/

/-- The constant `MAX_FRAMES` from `src/vulkan/swapchain.rs` line 12. -/
def MAX_FRAMES : Nat := 5

/-- The image-count computation in `Swapchain::new`
(`src/vulkan/swapchain.rs` lines 122-128): one more than the supported
minimum, capped by `MAX_FRAMES`, then by the device maximum when the
device maximum is nonzero. -/
def swapchainImageCount (min_image_count max_image_count : Nat) : Nat :=
  let image_count := min (min_image_count + 1) MAX_FRAMES
  if max_image_count ≠ 0 then min image_count max_image_count
  else image_count

/-! ## Physical-device selection (`src/device.rs`) -/

/-- The facts about one enumerated `vk::PhysicalDevice` that
`rate_physical_device` consults.  `handle` stands for the raw Vulkan
handle value (the handles have a total order, used by `max_by_key`).
`has_all_extensions` abstracts `get_missing_extensions(..).is_empty()`;
`format_count`/`present_mode_count` are the lengths of the vectors
reported by `swapchain::query_support`. -/
structure PhysicalDevice where
  handle : Nat
  discrete_gpu : Bool
  max_image_dimension2d : Nat
  max_push_constants_size : Nat
  has_all_extensions : Bool
  format_count : Nat
  present_mode_count : Nat
  has_graphics : Bool
  has_present : Bool
deriving Repr, DecidableEq

/-- The additive score computed at the end of `rate_physical_device`
(`src/device.rs` lines 123-130). -/
def deviceScore (d : PhysicalDevice) : Nat :=
  (if d.discrete_gpu then 1000 else 0)
    + d.max_image_dimension2d + d.max_push_constants_size

/-- Embeds `rate_physical_device` (`src/device.rs` lines 83-133): `none` when
the device misses a required extension, reports no surface format or no
present mode, or lacks a graphics or present queue family; otherwise the
device together with its score. -/
def ratePhysicalDevice (d : PhysicalDevice) : Option (PhysicalDevice × Nat) :=
  if ¬ d.has_all_extensions then none
  else if d.format_count = 0 ∨ d.present_mode_count = 0 then none
  else if ¬ d.has_graphics then none
  else if ¬ d.has_present then none
  else some (d, deviceScore d)

/-- The Rust `Iterator::max_by_key`: `none` on an empty iterator, otherwise
the last element attaining the maximal key. -/
def maxByKey {α β : Type} [LinearOrder β] (key : α → β) : List α → Option α
  | [] => none
  | x :: xs =>
      match maxByKey key xs with
      | none => some x
      | some y => if key y ≥ key x then some y else some x

/-- Embeds `pick_physical_device` (`src/device.rs` lines 157-172): filter the
enumerated devices through `rate_physical_device`, then take
`.max_by_key(|v| v.0)` — the key is the first tuple component, the
device handle.  `UnsuitableDevice` when no device survives the filter. -/
def pickPhysicalDevice (devices : List PhysicalDevice) :
    Except VError PhysicalDevice :=
  match maxByKey (fun v => v.1.handle) (devices.filterMap ratePhysicalDevice) with
  | some v => Except.ok v.1
  | none => Except.error VError.unsuitableDevice

/-! ## Descriptor allocator (`src/vulkan/descriptors/allocator.rs`) -/

/-- The `Pool` struct.  `set_count` is the capacity passed to
`vk::DescriptorPoolCreateInfo::max_sets`, `allocated` is the counter the
Rust code maintains, and `driver_allocated` is the number of sets the
driver has actually handed out from the underlying `vk::DescriptorPool`
(the two diverge when the code forgets to update its counter). -/
structure Pool where
  set_count : Nat
  allocated : Nat
  driver_allocated : Nat
deriving Repr, DecidableEq

/-- A fresh pool as built by `Pool::new(device, set_count, sizes)`. -/
def Pool.freshPool (set_count : Nat) : Pool :=
  { set_count := set_count, allocated := 0, driver_allocated := 0 }

/-- The driver-side outcome of `allocate_descriptor_sets` on one pool:
it succeeds exactly when the pool still has room for `k` more sets,
otherwise it reports `ERROR_OUT_OF_POOL_MEMORY_KHR`. -/
def Pool.hasRoom (p : Pool) (k : Nat) : Bool :=
  p.driver_allocated + k ≤ p.set_count

/-- Embeds `Vec::swap_remove(i)`: removes index `i`, replacing it with the last
element. -/
def swapRemove {α : Type} (xs : List α) (i : Nat) : List α :=
  match xs.getLast? with
  | none => xs
  | some last => (xs.set i last).dropLast

/-- The `DescriptorAllocator` struct: configured per-pool set count, the
list of pools with room left, and the list of full pools. -/
structure DescriptorAllocator where
  set_count : Nat
  pools : List Pool
  full_pools : List Pool
deriving Repr, DecidableEq

namespace DescriptorAllocator

/-- Embeds `DescriptorAllocator::allocate` for a request of `k` descriptor sets
(`src/vulkan/descriptors/allocator.rs` lines 76-114).  Iterate the
non-full pools in order; the first whose driver allocation succeeds has
its `allocated` counter bumped and migrates to `full_pools` once
`allocated >= set_count`; a pool that reports out-of-pool-memory is
skipped.  If none succeeds, `allocate_pool(self.set_count.max(k))` is
called — whose body (lines 145-150) constructs
`Pool::new(&self.device, self.set_count, &self.sizes)`, ignoring its
`set_count` argument — and the final `allocate_descriptor_sets` on the
new pool either succeeds (without updating the `allocated`
counter) or propagates the driver error. -/
def allocate (a : DescriptorAllocator) (k : Nat) :
    Except VError Unit × DescriptorAllocator :=
  match a.pools.findIdx? (fun p => p.hasRoom k) with
  | some i =>
      let p := a.pools.getD i (Pool.freshPool 0)
      let p' := { p with allocated := p.allocated + k,
                         driver_allocated := p.driver_allocated + k }
      if p'.allocated ≥ p'.set_count then
        (Except.ok (), { a with pools := swapRemove (a.pools.set i p') i,
                                full_pools := a.full_pools ++ [p'] })
      else
        (Except.ok (), { a with pools := a.pools.set i p' })
  | none =>
      let newPool := Pool.freshPool a.set_count
      if (newPool.hasRoom k) then
        (Except.ok (),
         { a with pools := a.pools ++ [{ newPool with driver_allocated := k }] })
      else
        (Except.error (VError.vulkanError VkResult.errOutOfPoolMemoryKhr),
         { a with pools := a.pools ++ [newPool] })

/-- Total number of pools (`total_pool_count`). -/
def total_pool_count (a : DescriptorAllocator) : Nat :=
  a.pools.length + a.full_pools.length

end DescriptorAllocator

/-! ## Mesh renderer transform write (`src/mesh_renderer.rs`) -/

/-- The constant `MAX_OBJECTS` from `src/mesh_renderer.rs` line 19. -/
def MAX_OBJECTS : Nat := 8192

/-- Bounds-checked slice store `slice[i] = v`: Rust panics when
`i >= slice.len()`, modelled as `none`.  Each record abstracts one
`ObjectData` transform (whose float matrix entries we do not model). -/
def listSet? {α : Type} (xs : List α) (i : Nat) (v : α) : Option (List α) :=
  if i < xs.length then some (xs.set i v) else none

/-- The closure body at `src/mesh_renderer.rs` lines 122-132: for each of
the `n` scene objects in order, store its record at `slice[i]`.  `none`
models an index-out-of-bounds panic. -/
def fillObjects : Nat → Nat → List Nat → Option (List Nat)
  | 0, _, s => some s
  | n + 1, i, s =>
      match listSet? s i i with
      | none => none
      | some s' => fillObjects n (i + 1) s'

/-- Outcome of the transform-write step of `MeshRenderer::draw`:
whether `log::error!` fired, and the records written (`none` = the
closure panicked). -/
structure MeshDrawWrite where
  logged_error : Bool
  records : Option (List Nat)
deriving Repr, DecidableEq

/-- The transform-write step of `MeshRenderer::draw`
(`src/mesh_renderer.rs` lines 115-133) for a scene of `n` objects:
log an error when `n > MAX_OBJECTS`, then
`object_buffer.write_slice(min n MAX_OBJECTS, 0, closure)` — the
`write_slice` size `min n MAX_OBJECTS * size_of::<ObjectData>()` never
exceeds the buffer capacity `MAX_OBJECTS * size_of::<ObjectData>()`,
so the buffer maps a slice of `min n MAX_OBJECTS` records and invokes
the closure on it. -/
def meshObjectWrite (n : Nat) : MeshDrawWrite :=
  { logged_error := n > MAX_OBJECTS,
    records := fillObjects n 0 (List.replicate (min n MAX_OBJECTS) 0) }

/-! ## Master renderer (`src/master_renderer.rs`) -/

/-- The constant `FRAMES_IN_FLIGHT` from `src/master_renderer.rs` line 33. -/
def FRAMES_IN_FLIGHT : Nat := 2

/-- Models `vk::SurfaceFormatKHR`: a pixel format together with a color space
(the resize path compares whole `SurfaceFormatKHR` values). -/
structure SurfaceFormat where
  format : Nat
  color_space : Nat
deriving Repr, DecidableEq

/-- The value of `size_of::<UniformBufferObject>()`: one column-major 4x4 `f32`
matrix, 64 bytes. -/
def UNIFORM_BUFFER_SIZE : Nat := 64

/-- The uniform buffer built by `PerFrameData::new`: a `MappedPersistent`
`Uniform` buffer holding exactly one `UniformBufferObject` (its float
contents are abstracted as zero bytes). -/
def freshUniformBuffer : Buffer :=
  { size := UNIFORM_BUFFER_SIZE, ty := BufferType.Uniform,
    usage := BufferUsage.MappedPersistent,
    contents := List.replicate UNIFORM_BUFFER_SIZE 0,
    staging_buffer := Option.none }

/-- The struct `PerFrameData` restricted to the fields the frame loop reads and
writes: the per-image uniform buffer and the `image_in_flight` fence
(`none` models `vk::Fence::null()`; fences are identified with the
frame-in-flight index that owns them). -/
structure FrameSlot where
  uniformbuffer : Buffer
  image_in_flight : Option Nat
deriving Repr, DecidableEq

/-- A freshly built `PerFrameData` slot (fence field starts null). -/
def FrameSlot.fresh : FrameSlot :=
  { uniformbuffer := freshUniformBuffer, image_in_flight := Option.none }

/-- The mutable state of `MasterRenderer` that the frame loop touches.
Recreating an object is modelled by bumping its generation counter, so
`x_gen` unchanged means the object kept its identity. -/
structure RendererState where
  current_frame : Nat
  should_resize : Bool
  surface_format : SurfaceFormat
  swapchain_gen : Nat
  color_attachment_gen : Nat
  depth_attachment_gen : Nat
  renderpass_gen : Nat
  pipeline_gen : Nat
  per_frame_data : List FrameSlot
deriving Repr, DecidableEq

/-- The environment of one `draw` call: results injected by the driver
and window system.  `acquire_result` is `Swapchain::next_image` (`Ok`
carries the image index), `submit_result` is `CommandBuffer::submit`
(`none` = success), `present_result` is `Swapchain::present` (`Ok`
carries the suboptimal flag).  `new_surface_format` and
`new_image_count` describe the swapchain a resize would create, and
`uniform_write` abstracts the byte image of the `UniformBufferObject`
fill closure. -/
structure DrawEnv where
  acquire_result : Except VkResult Nat
  submit_result : Option VkResult
  present_result : Except VkResult Bool
  new_surface_format : SurfaceFormat
  new_image_count : Nat
  uniform_write : List Nat → List Nat

/-- The externally observable steps of one `draw` call, in order. -/
inductive Step where
  | resizeStep
  | fenceWaitFrame
  | acquire
  | fenceWaitImage
  | fenceReset
  | uniformWrite
  | submit
  | presentStep
deriving Repr, DecidableEq

/-- Result of a `draw` call.  `panic` models a Rust panic (indexing
`per_frame_data` out of bounds). -/
inductive DrawOutcome where
  | ok
  | err (e : VError)
  | panic
deriving Repr, DecidableEq

namespace MasterRenderer

/-- Embeds `MasterRenderer::resize` (`src/master_renderer.rs` lines 357-446):
clear the flag, wait idle, recreate the swapchain and both attachments,
recreate the renderpass only when the surface format changed, recreate
the pipeline, reset the command pool and descriptor allocator, and
rebuild every `PerFrameData` (one per new swapchain image). -/
def resize (s : RendererState) (env : DrawEnv) : RendererState :=
  { s with
    should_resize := false,
    swapchain_gen := s.swapchain_gen + 1,
    surface_format := env.new_surface_format,
    color_attachment_gen := s.color_attachment_gen + 1,
    depth_attachment_gen := s.depth_attachment_gen + 1,
    renderpass_gen :=
      if s.surface_format ≠ env.new_surface_format then s.renderpass_gen + 1
      else s.renderpass_gen,
    pipeline_gen := s.pipeline_gen + 1,
    per_frame_data := List.replicate env.new_image_count FrameSlot.fresh }

/-- Embeds `MasterRenderer::draw` (`src/master_renderer.rs` lines 448-530),
returning the outcome of the call, the state it leaves behind, and the trace
of performed steps.  An `ERROR_OUT_OF_DATE_KHR` from acquire or present
calls `on_resize` (sets the flag) and returns `Ok(())`; any other error
propagates; `current_frame` advances modulo `FRAMES_IN_FLIGHT` only
after a successful present. -/
def draw (s0 : RendererState) (env : DrawEnv) :
    DrawOutcome × RendererState × List Step :=
  let s := if s0.should_resize then resize s0 env else s0
  let tr := (if s0.should_resize then [Step.resizeStep] else [])
      ++ [Step.fenceWaitFrame]
  match env.acquire_result with
  | Except.error VkResult.errOutOfDateKhr =>
      (DrawOutcome.ok, { s with should_resize := true }, tr ++ [Step.acquire])
  | Except.error e =>
      (DrawOutcome.err (VError.vulkanError e), s, tr ++ [Step.acquire])
  | Except.ok image_index =>
      match s.per_frame_data[image_index]? with
      | Option.none => (DrawOutcome.panic, s, tr ++ [Step.acquire])
      | some data =>
          let tr := tr ++ [Step.acquire]
              ++ (if data.image_in_flight.isSome then [Step.fenceWaitImage] else [])
          let data1 := { data with image_in_flight := some s.current_frame }
          let s1 := { s with
            per_frame_data := s.per_frame_data.set image_index data1 }
          let tr := tr ++ [Step.fenceReset]
          match data1.uniformbuffer.write UNIFORM_BUFFER_SIZE 0 env.uniform_write with
          | (Except.error e, _) => (DrawOutcome.err e, s1, tr)
          | (Except.ok b, _) =>
              let data2 := { data1 with uniformbuffer := b }
              let s2 := { s1 with
                per_frame_data := s1.per_frame_data.set image_index data2 }
              let tr := tr ++ [Step.uniformWrite]
              match env.submit_result with
              | some e =>
                  (DrawOutcome.err (VError.vulkanError e), s2, tr ++ [Step.submit])
              | Option.none =>
                  let tr := tr ++ [Step.submit]
                  match env.present_result with
                  | Except.error VkResult.errOutOfDateKhr =>
                      (DrawOutcome.ok, { s2 with should_resize := true },
                       tr ++ [Step.presentStep])
                  | Except.error e =>
                      (DrawOutcome.err (VError.vulkanError e), s2,
                       tr ++ [Step.presentStep])
                  | Except.ok _suboptimal =>
                      (DrawOutcome.ok,
                       { s2 with
                         current_frame := (s2.current_frame + 1) % FRAMES_IN_FLIGHT },
                       tr ++ [Step.presentStep])

end MasterRenderer

/-! ## Concrete fixtures used by witnesses and counterexamples -/

/-- A 4-byte temporarily-mapped buffer. -/
def smallMappedBuffer : Buffer :=
  { size := 4, ty := BufferType.Uniform, usage := BufferUsage.Mapped,
    contents := [0, 0, 0, 0], staging_buffer := Option.none }

/-- An eligible discrete GPU with large limits and the smaller handle. -/
def deviceDiscrete : PhysicalDevice :=
  { handle := 1, discrete_gpu := true, max_image_dimension2d := 4096,
    max_push_constants_size := 256, has_all_extensions := true,
    format_count := 1, present_mode_count := 1,
    has_graphics := true, has_present := true }

/-- An eligible integrated GPU with tiny limits and the larger handle. -/
def deviceWeak : PhysicalDevice :=
  { handle := 2, discrete_gpu := false, max_image_dimension2d := 1,
    max_push_constants_size := 0, has_all_extensions := true,
    format_count := 1, present_mode_count := 1,
    has_graphics := true, has_present := true }

/-- A renderer state just after startup: frame 0, no pending resize, one
swapchain image. -/
def startState : RendererState :=
  { current_frame := 0, should_resize := false,
    surface_format := { format := 0, color_space := 0 },
    swapchain_gen := 0, color_attachment_gen := 0, depth_attachment_gen := 0,
    renderpass_gen := 0, pipeline_gen := 0,
    per_frame_data := [FrameSlot.fresh] }

/-- A draw environment in which every driver call succeeds and present
reports suboptimal = `b`; a resize would reproduce the same surface
format and one image. -/
def envPresentOk (b : Bool) : DrawEnv :=
  { acquire_result := Except.ok 0, submit_result := Option.none,
    present_result := Except.ok b,
    new_surface_format := { format := 0, color_space := 0 },
    new_image_count := 1, uniform_write := id }

/-- A draw environment whose acquire reports `ERROR_OUT_OF_DATE_KHR`. -/
def envAcquireOutOfDate : DrawEnv :=
  { envPresentOk false with
    acquire_result := Except.error VkResult.errOutOfDateKhr }

/-- A draw environment whose present reports `ERROR_OUT_OF_DATE_KHR`. -/
def envPresentOutOfDate : DrawEnv :=
  { envPresentOk false with
    present_result := Except.error VkResult.errOutOfDateKhr }

/-! ## Claims -/

/-- Claim C1: A `Buffer::write` whose requested byte size strictly exceeds
the allocated capacity returns `BufferOverflow` recording exactly the
requested size and the capacity, and performs nothing: the write
function is not invoked, no staging buffer is created, and the buffer
value is untouched (the call yields only the error). -/
theorem write_overflow_returns_error (b : Buffer) (size offset : Nat)
    (f : List Nat → List Nat) (h : size > b.size) :
    b.write size offset f
      = (Except.error (VError.bufferOverflow size b.size), WriteTrace.none) := by
  unfold Buffer.write
  simp [h]

/-- Witness for C1: a 5-byte write into a 4-byte buffer. -/
theorem write_overflow_returns_error_witness :
    5 > smallMappedBuffer.size
    ∧ smallMappedBuffer.write 5 0 id
        = (Except.error (VError.bufferOverflow 5 4), WriteTrace.none) :=
  ⟨by decide, write_overflow_returns_error smallMappedBuffer 5 0 id (by decide)⟩

/-- Claim C10: `Buffer::write` validates only the size, never the offset:
whenever `size ≤ capacity` the call never returns a `BufferOverflow`,
whatever the offset — even when `offset + size` exceeds the capacity. -/
theorem write_never_checks_offset (b : Buffer) (size offset : Nat)
    (f : List Nat → List Nat) (h : size ≤ b.size) (sz ms : Nat) :
    (b.write size offset f).1 ≠ Except.error (VError.bufferOverflow sz ms) := by
  unfold Buffer.write
  have hgt : ¬ size > b.size := by omega
  simp only [hgt, if_false]
  cases b.usage <;> simp

/-- Witness for C10: a 4-byte write at offset 100 of a 4-byte buffer
(offset + size = 104 > 4) is not rejected as an overflow. -/
theorem write_never_checks_offset_witness :
    4 ≤ smallMappedBuffer.size
    ∧ (smallMappedBuffer.write 4 100 id).1
        ≠ Except.error (VError.bufferOverflow 4 4) :=
  ⟨by decide, write_never_checks_offset smallMappedBuffer 4 100 id (by decide) 4 4⟩

/-- Claim C7: The requested swapchain image count is `min_image_count + 1`
clamped down to the hard cap `MAX_FRAMES = 5`, and further clamped down
to the device maximum `max_image_count` exactly when that maximum is nonzero
(zero means unbounded); in particular it never exceeds the cap. -/
theorem swapchain_image_count_clamped (mi ma : Nat) :
    swapchainImageCount mi ma ≤ MAX_FRAMES
    ∧ swapchainImageCount mi ma ≤ mi + 1
    ∧ swapchainImageCount mi ma
        = if ma = 0 then min (mi + 1) MAX_FRAMES
          else min (min (mi + 1) MAX_FRAMES) ma := by
  unfold swapchainImageCount MAX_FRAMES
  by_cases h : ma = 0 <;> simp [h]

/-- Claim C5 is a code bug: Requesting 3 descriptor sets from a fresh
allocator configured for 2 sets per pool: `allocate` reaches
`allocate_pool(self.set_count.max(3))`, but `allocate_pool` constructs
`Pool::new(&self.device, self.set_count, ..)`, ignoring its argument, so
the new pool holds 2 sets, the final driver allocation of 3 sets fails
with out-of-pool-memory, and the error propagates — instead of a pool
sized to the request. -/
theorem allocate_ignores_oversized_request :
    (DescriptorAllocator.allocate
        { set_count := 2, pools := [], full_pools := [] } 3).1
      = Except.error (VError.vulkanError VkResult.errOutOfPoolMemoryKhr)
    ∧ (DescriptorAllocator.allocate
        { set_count := 2, pools := [], full_pools := [] } 3).2.pools
      = [{ set_count := 2, allocated := 0, driver_allocated := 0 }] :=
  ⟨rfl, rfl⟩

/-- Claim C6 is a code bug: `pick_physical_device` takes
`.max_by_key(|v| v.0)` over the rated devices — the key is the raw
device handle, not the score — so among two eligible devices it returns
the one with the larger handle even though the other scores higher. -/
theorem pick_physical_device_keys_on_handle :
    deviceScore deviceDiscrete > deviceScore deviceWeak
    ∧ pickPhysicalDevice [deviceDiscrete, deviceWeak] = Except.ok deviceWeak :=
  ⟨by decide, rfl⟩

/-- If the object loop starts at index `i` and still has `n > 0` stores
to perform against a slice shorter than `i + n`, it hits an
out-of-bounds index and panics. -/
theorem fillObjects_out_of_bounds :
    ∀ (n i : Nat) (s : List Nat),
      s.length < i + n → 0 < n → fillObjects n i s = Option.none := by
  intro n
  induction n with
  | zero => intro i s _ hn; exact absurd hn (lt_irrefl 0)
  | succ m ih =>
      intro i s h _
      by_cases hi : i < s.length
      · have hm : 0 < m := by omega
        have hlen : (s.set i i).length < (i + 1) + m := by
          simp only [List.length_set]; omega
        simp only [fillObjects, listSet?, hi, if_true]
        exact ih (i + 1) (s.set i i) hlen hm
      · simp only [fillObjects, listSet?, hi, if_false]

/-- Claim C8 is a code bug: For a scene exceeding `MAX_OBJECTS`, the mesh
renderer logs the error, but the write closure then iterates over all
`n` objects while the mapped slice holds only
`min n MAX_OBJECTS = MAX_OBJECTS` records: the store at index
`MAX_OBJECTS` is out of bounds and the draw panics instead of silently
truncating to `MAX_OBJECTS` records. -/
theorem mesh_object_write_panics_when_exceeded (n : Nat) (h : n > MAX_OBJECTS) :
    (meshObjectWrite n).logged_error = true
    ∧ (meshObjectWrite n).records = Option.none := by
  constructor
  · simp [meshObjectWrite, h]
  · unfold meshObjectWrite
    apply fillObjects_out_of_bounds
    · simp only [List.length_replicate]
      omega
    · omega

/-- Any `draw` call entered with the resize flag set performs the resize
first: its step trace begins with the resize step. -/
theorem draw_trace_starts_with_resize (s : RendererState) (env : DrawEnv)
    (h : s.should_resize = true) :
    (MasterRenderer.draw s env).2.2.head? = some Step.resizeStep := by
  unfold MasterRenderer.draw
  simp only [h, if_true]
  split <;> try simp
  all_goals (split <;> try simp)
  all_goals (split <;> try simp)
  all_goals (split <;> try simp)
  all_goals (split <;> try simp)

/-- Claim C2: A `draw` whose swapchain acquire reports
`ERROR_OUT_OF_DATE_KHR` returns success, sets the resize flag, and
performs none of the remaining frame steps — no fence reset, no
uniform-buffer write, no submit, no present; any subsequent `draw` on
the resulting state then performs the resize at its very start. -/
theorem draw_acquire_out_of_date_skips_frame (s0 : RendererState) (env : DrawEnv)
    (h : env.acquire_result = Except.error VkResult.errOutOfDateKhr) :
    (MasterRenderer.draw s0 env).1 = DrawOutcome.ok
    ∧ (MasterRenderer.draw s0 env).2.1.should_resize = true
    ∧ Step.fenceReset ∉ (MasterRenderer.draw s0 env).2.2
    ∧ Step.uniformWrite ∉ (MasterRenderer.draw s0 env).2.2
    ∧ Step.submit ∉ (MasterRenderer.draw s0 env).2.2
    ∧ Step.presentStep ∉ (MasterRenderer.draw s0 env).2.2
    ∧ ∀ env2 : DrawEnv,
        (MasterRenderer.draw (MasterRenderer.draw s0 env).2.1 env2).2.2.head?
          = some Step.resizeStep := by
  have hs : (MasterRenderer.draw s0 env).2.1.should_resize = true := by
    unfold MasterRenderer.draw
    simp [h]
  refine ⟨?_, hs, ?_, ?_, ?_, ?_,
    fun env2 => draw_trace_starts_with_resize _ env2 hs⟩ <;>
  · unfold MasterRenderer.draw
    by_cases hr : s0.should_resize <;> simp [h, hr]

/-- Witness for C2: the start state drawn against an environment whose
acquire is out of date. -/
theorem draw_acquire_out_of_date_skips_frame_witness :
    envAcquireOutOfDate.acquire_result
        = Except.error VkResult.errOutOfDateKhr
    ∧ (MasterRenderer.draw startState envAcquireOutOfDate).1 = DrawOutcome.ok
    ∧ (MasterRenderer.draw startState envAcquireOutOfDate).2.1.should_resize
        = true
    ∧ Step.submit ∉ (MasterRenderer.draw startState envAcquireOutOfDate).2.2 :=
  ⟨rfl,
   (draw_acquire_out_of_date_skips_frame startState envAcquireOutOfDate rfl).1,
   (draw_acquire_out_of_date_skips_frame startState envAcquireOutOfDate rfl).2.1,
   (draw_acquire_out_of_date_skips_frame startState envAcquireOutOfDate
      rfl).2.2.2.2.1⟩

/-- Claim C3 counterexample: A full frame in which present succeeds with
the suboptimal flag set: `draw` completes (present step performed,
outcome `Ok`), yet the resize flag is left clear — `draw` binds the
flag as `_suboptimal` and ignores it, so a suboptimal present does not
trigger a resize. -/
theorem draw_suboptimal_present_ignored_cex :
    (MasterRenderer.draw startState (envPresentOk true)).1 = DrawOutcome.ok
    ∧ Step.presentStep ∈ (MasterRenderer.draw startState (envPresentOk true)).2.2
    ∧ (MasterRenderer.draw startState (envPresentOk true)).2.1.should_resize
        = false := by
  refine ⟨rfl, ?_, rfl⟩
  decide

/-- Claim C3 amended: The suboptimal flag returned by a successful present
is ignored entirely: the outcome, the final state (in particular the
resize flag) and the step trace of `draw` are identical whatever the
flag value; only an `ERROR_OUT_OF_DATE_KHR` result flags a resize. -/
theorem draw_independent_of_suboptimal_flag (s0 : RendererState)
    (env : DrawEnv) (b : Bool) :
    MasterRenderer.draw s0 { env with present_result := Except.ok b }
      = MasterRenderer.draw s0 { env with present_result := Except.ok false } := by
  obtain ⟨a, su, p, nf, nc, uw⟩ := env
  rfl

/-- Claim C4 counterexample: A resize in which the new swapchain reports
the same surface format as the old one still recreates the pipeline
object (`Pipeline::new` is called unconditionally in
`MasterRenderer::resize`), refuting the claim that the pipeline
identity is preserved. -/
theorem resize_same_format_recreates_pipeline_cex :
    (envPresentOk false).new_surface_format = startState.surface_format
    ∧ (MasterRenderer.resize startState (envPresentOk false)).pipeline_gen
        = startState.pipeline_gen + 1 := by
  exact ⟨rfl, rfl⟩

/-- Claim C4 amended: A resize whose new swapchain reports an unchanged
surface format recreates the swapchain, the color and depth attachments,
and the per-frame data, preserves the identity of the renderpass, and
recreates the pipeline object (the pipeline is rebuilt on every resize
because it bakes in the swapchain extent). -/
theorem resize_same_format_preserves_renderpass (s : RendererState)
    (env : DrawEnv) (h : env.new_surface_format = s.surface_format) :
    (MasterRenderer.resize s env).renderpass_gen = s.renderpass_gen
    ∧ (MasterRenderer.resize s env).pipeline_gen = s.pipeline_gen + 1
    ∧ (MasterRenderer.resize s env).swapchain_gen = s.swapchain_gen + 1
    ∧ (MasterRenderer.resize s env).color_attachment_gen
        = s.color_attachment_gen + 1
    ∧ (MasterRenderer.resize s env).depth_attachment_gen
        = s.depth_attachment_gen + 1
    ∧ (MasterRenderer.resize s env).per_frame_data
        = List.replicate env.new_image_count FrameSlot.fresh
    ∧ (MasterRenderer.resize s env).should_resize = false := by
  unfold MasterRenderer.resize
  simp [h]

/-- Witness for C4: resizing the start state with an unchanged surface
format. -/
theorem resize_same_format_preserves_renderpass_witness :
    (envPresentOk false).new_surface_format = startState.surface_format
    ∧ (MasterRenderer.resize startState (envPresentOk false)).renderpass_gen
        = startState.renderpass_gen
    ∧ (MasterRenderer.resize startState (envPresentOk false)).pipeline_gen
        = startState.pipeline_gen + 1 :=
  ⟨rfl,
   (resize_same_format_preserves_renderpass startState (envPresentOk false)
      rfl).1,
   (resize_same_format_preserves_renderpass startState (envPresentOk false)
      rfl).2.1⟩

set_option maxHeartbeats 2000000 in
/-- Claim C9: The frame ring protocol of `draw`: `current_frame` stays in
`[0, FRAMES_IN_FLIGHT)`; any change to it is an advance by exactly one
modulo `FRAMES_IN_FLIGHT` occurring only on a successful (`Ok`) draw
whose present returned `Ok`; a performed present that returned `Ok`
always advances it; and a draw exiting through the out-of-date path at
acquire or at present leaves it unchanged (the skipped frame reuses the
same slot). -/
theorem draw_current_frame_ring (s0 : RendererState) (env : DrawEnv) :
    (s0.current_frame < FRAMES_IN_FLIGHT →
        (MasterRenderer.draw s0 env).2.1.current_frame < FRAMES_IN_FLIGHT)
    ∧ ((MasterRenderer.draw s0 env).2.1.current_frame ≠ s0.current_frame →
        (MasterRenderer.draw s0 env).1 = DrawOutcome.ok
        ∧ (∃ b, env.present_result = Except.ok b)
        ∧ (MasterRenderer.draw s0 env).2.1.current_frame
            = (s0.current_frame + 1) % FRAMES_IN_FLIGHT)
    ∧ (Step.presentStep ∈ (MasterRenderer.draw s0 env).2.2 →
        (∃ b, env.present_result = Except.ok b) →
        (MasterRenderer.draw s0 env).2.1.current_frame
            = (s0.current_frame + 1) % FRAMES_IN_FLIGHT)
    ∧ (env.acquire_result = Except.error VkResult.errOutOfDateKhr →
        (MasterRenderer.draw s0 env).2.1.current_frame = s0.current_frame)
    ∧ (env.present_result = Except.error VkResult.errOutOfDateKhr →
        (MasterRenderer.draw s0 env).2.1.current_frame = s0.current_frame) := by
  unfold MasterRenderer.draw
  split
  all_goals try (simp only [])
  all_goals split
  all_goals try (refine ⟨?_, ?_, ?_, ?_, ?_⟩ <;>
      simp_all [FRAMES_IN_FLIGHT, MasterRenderer.resize] <;>
      first
      | done
      | omega)
  all_goals split
  all_goals try (refine ⟨?_, ?_, ?_, ?_, ?_⟩ <;>
      simp_all [FRAMES_IN_FLIGHT, MasterRenderer.resize] <;>
      first
      | done
      | omega)
  all_goals split
  all_goals try (refine ⟨?_, ?_, ?_, ?_, ?_⟩ <;>
      simp_all [FRAMES_IN_FLIGHT, MasterRenderer.resize] <;>
      first
      | done
      | omega)
  all_goals split
  all_goals try (refine ⟨?_, ?_, ?_, ?_, ?_⟩ <;>
      simp_all [FRAMES_IN_FLIGHT, MasterRenderer.resize] <;>
      first
      | done
      | omega)
  all_goals split
  all_goals (refine ⟨?_, ?_, ?_, ?_, ?_⟩ <;>
      simp_all [FRAMES_IN_FLIGHT, MasterRenderer.resize] <;>
      first
      | done
      | omega)

/-- Witness for C9: one fully successful frame from the start state
advances `current_frame` from 0 to 1. -/
theorem draw_current_frame_ring_witness :
    startState.current_frame < FRAMES_IN_FLIGHT
    ∧ (MasterRenderer.draw startState (envPresentOk false)).2.1.current_frame
        < FRAMES_IN_FLIGHT
    ∧ (MasterRenderer.draw startState
          (envPresentOk false)).2.1.current_frame
        = (startState.current_frame + 1) % FRAMES_IN_FLIGHT :=
  ⟨by decide,
   (draw_current_frame_ring startState (envPresentOk false)).1 (by decide),
   (draw_current_frame_ring startState (envPresentOk false)).2.2.1
     (by decide) ⟨false, rfl⟩⟩

/-- Witness for C8: a scene of `MAX_OBJECTS + 1 = 8193` objects. -/
theorem mesh_object_write_panics_when_exceeded_witness :
    8193 > MAX_OBJECTS
    ∧ (meshObjectWrite 8193).logged_error = true
    ∧ (meshObjectWrite 8193).records = Option.none :=
  ⟨by decide,
   (mesh_object_write_panics_when_exceeded 8193 (by decide)).1,
   (mesh_object_write_panics_when_exceeded 8193 (by decide)).2⟩

end VulkanSandbox
